import Mathlib

/-!
# go_bi_server: schema messages to Hive DDL

A shallow embedding of `main.go`: the MySQL-to-Hive type mapper, the two DDL
generators, the statement executor and the ingestion loop, followed by the
properties the specification states about them.

Go strings are byte sequences: `len` counts bytes and `s[:n]` cuts at a byte
offset.  They are modelled as lists of byte values, so that the slice at the
end of `generateHiveTableSQL` is the slice the Go runtime performs.
-/

namespace GoBiServer

set_option maxRecDepth 8000

/-! ## Strings -/

/-- A Go string: an immutable sequence of bytes, each byte given by its value. -/
abbrev GoString := List Nat

/-- UTF-8 encoding of one code point, as the Go compiler stores a source literal. -/
def utf8EncodeRune (c : Nat) : List Nat :=
  if c < 0x80 then [c]
  else if c < 0x800 then [0xC0 + c / 64, 0x80 + c % 64]
  else if c < 0x10000 then [0xE0 + c / 4096, 0x80 + c / 64 % 64, 0x80 + c % 64]
  else [0xF0 + c / 262144, 0x80 + c / 4096 % 64, 0x80 + c / 64 % 64, 0x80 + c % 64]

/-- The bytes of a string literal of the source file. -/
def lit (s : String) : GoString :=
  s.toList.flatMap (fun c => utf8EncodeRune c.toNat)

/-- The slice expression `s[:hi]`: the first `hi` bytes, or a run-time panic
(`none`) when `hi` is outside `0 .. len(s)`. -/
def sliceTo (s : GoString) (hi : Int) : Option GoString :=
  if 0 ≤ hi ∧ hi ≤ (s.length : Int) then some (s.take hi.toNat) else none

/-- Lower-casing of one ASCII byte; every other byte is kept. -/
def toLowerByte (b : Nat) : Nat :=
  if 65 ≤ b ∧ b ≤ 90 then b + 32 else b

/-- Lower-casing of a string of ASCII letters, the meaning of "lower-cased"
for the type names of the mapping table. -/
def toLowerASCII (s : GoString) : GoString :=
  s.map toLowerByte

/-! ## Data model -/

/-- Column represents a column in the table. -/
structure Column where
  Name : GoString
  DataType : GoString
  IsNullable : Bool
  IsPrimary : Bool
  deriving DecidableEq, Repr

/-- Table represents a table in the schema. -/
structure Table where
  Name : GoString
  Columns : List Column
  deriving DecidableEq, Repr

/-- Schema represents the entire schema with multiple tables. -/
structure Schema where
  DatabaseName : GoString
  Tables : List Table
  deriving DecidableEq, Repr

/-! ## Type mapper and DDL generators -/

/-- Convert MySQL data types to Hive data types: the `switch` of the source,
its cases tried from top to bottom. -/
def mysqlToHiveDataType (mysqlType : GoString) : GoString :=
  if mysqlType = lit "int" ∨ mysqlType = lit "smallint" ∨
      mysqlType = lit "mediumint" ∨ mysqlType = lit "bigint" then
    lit "INT"
  else if mysqlType = lit "varchar" ∨ mysqlType = lit "char" ∨
      mysqlType = lit "text" then
    lit "STRING"
  else if mysqlType = lit "float" ∨ mysqlType = lit "double" ∨
      mysqlType = lit "decimal" then
    lit "DOUBLE"
  else if mysqlType = lit "date" ∨ mysqlType = lit "datetime" ∨
      mysqlType = lit "timestamp" then
    lit "TIMESTAMP"
  else
    lit "STRING"

/-- Generate Hive database creation script:
`fmt.Sprintf("CREATE DATABASE IF NOT EXISTS %s;", databaseName)`. -/
def generateHiveDatabaseSQL (databaseName : GoString) : GoString :=
  lit "CREATE DATABASE IF NOT EXISTS " ++ databaseName ++ lit ";"

/-- One iteration of the column loop of `generateHiveTableSQL`: the three
`WriteString` calls on the builder `sql`. -/
def writeColumn (sql : GoString) (col : Column) : GoString :=
  let hiveDataType := mysqlToHiveDataType col.DataType
  let sql := sql ++ (lit "  " ++ col.Name ++ lit " " ++ hiveDataType)
  let sql := if !col.IsNullable then sql ++ lit " NOT NULL" else sql
  sql ++ lit ",\n"

/-- The contents of the builder of `generateHiveTableSQL` after the column
loop, that is the value of `sql.String()`. -/
def buildTableSQL (databaseName : GoString) (table : Table) : GoString :=
  table.Columns.foldl writeColumn
    (lit "CREATE TABLE IF NOT EXISTS " ++ databaseName ++ lit "." ++ table.Name ++ lit " (\n")

/-- Generate Hive table creation script.  The result is `none` when the slice
`sqlString[:len(sqlString)-2]` panics. -/
def generateHiveTableSQL (databaseName : GoString) (table : Table) : Option GoString :=
  let sqlString := buildTableSQL databaseName table
  match sliceTo sqlString ((sqlString.length : Int) - 2) with
  | none => none
  | some kept => some (kept ++ lit "\n);")

/-! ## Statement executor and ingestion loop -/

/-- The outside world as `main` sees it: running `/usr/local/hive/bin/hive -e sql`
in a state of the world yields whether `cmd.Run()` returned an error, and the
next state of the world. -/
abbrev Hive (W : Type) := GoString → W → Bool × W

/-- The state of the process: the world, and the statements given to
`executeHiveSQL` so far, oldest first. -/
structure Proc (W : Type) where
  world : W
  executed : List GoString

/-- The calls that end the process: the `log.Fatal` and `log.Fatalf` calls of
`main`, and a run-time panic of the slice in `generateHiveTableSQL`. -/
inductive Fatal where
  | createSession
  | readMessage
  | unmarshal
  | createDatabase
  | createTable
  | slicePanic
  deriving DecidableEq, Repr

/-- Where control is after a run of the loop: blocked in `ReadMessage` for the
next message, or the process has exited. -/
inductive Control where
  | reading
  | exited (why : Fatal)
  deriving DecidableEq, Repr

/-- Run one statement with the Hive command line; the boolean is `true` when
the returned error is not `nil`. -/
def executeHiveSQL {W : Type} (hive : Hive W) (sql : GoString) (p : Proc W) : Bool × Proc W :=
  let r := hive sql p.world
  (r.1, { world := r.2, executed := p.executed ++ [sql] })

/-- The loop over `schema.Tables` in `main`. -/
def createTables {W : Type} (hive : Hive W) (databaseName : GoString) :
    List Table → Proc W → Control × Proc W
  | [], p => (Control.reading, p)
  | table :: rest, p =>
    match generateHiveTableSQL databaseName table with
    | none => (Control.exited Fatal.slicePanic, p)
    | some tableSQL =>
      let r := executeHiveSQL hive tableSQL p
      if r.1 then (Control.exited Fatal.createTable, r.2)
      else createTables hive databaseName rest r.2

/-- The body of the loop of `main` once the message is decoded: the database
statement, then the statement of every table. -/
def processSchema {W : Type} (hive : Hive W) (schema : Schema) (p : Proc W) :
    Control × Proc W :=
  let databaseSQL := generateHiveDatabaseSQL schema.DatabaseName
  let r := executeHiveSQL hive databaseSQL p
  if r.1 then (Control.exited Fatal.createDatabase, r.2)
  else createTables hive schema.DatabaseName schema.Tables r.2

/-- The `for` loop of `main` over the messages the reader delivers: `none` is
a failed `ReadMessage`, `unmarshal` stands for `json.Unmarshal` into a `Schema`.
When the delivered messages are used up the loop is blocked in `ReadMessage`. -/
def ingest {W : Type} (hive : Hive W) (unmarshal : GoString → Option Schema) :
    List (Option GoString) → Proc W → Control × Proc W
  | [], p => (Control.reading, p)
  | none :: _, p => (Control.exited Fatal.readMessage, p)
  | some value :: later, p =>
    match unmarshal value with
    | none => (Control.exited Fatal.unmarshal, p)
    | some schema =>
      match processSchema hive schema p with
      | (Control.reading, q) => ingest hive unmarshal later q
      | (Control.exited why, q) => (Control.exited why, q)

/-- The function `main`: the session is created first, then the loop runs. -/
def main {W : Type} (sessionCreated : Bool) (hive : Hive W)
    (unmarshal : GoString → Option Schema) (messages : List (Option GoString))
    (world : W) : Control × Proc W :=
  if sessionCreated then ingest hive unmarshal messages { world := world, executed := [] }
  else (Control.exited Fatal.createSession, { world := world, executed := [] })

/-! ## Vocabulary of the statements below -/

/-- The world after the statements have been run one after the other, each
without error; `none` once one of them fails. -/
def succeedAll {W : Type} (hive : Hive W) : List GoString → W → Option W
  | [], w => some w
  | sql :: rest, w => if (hive sql w).1 then none else succeedAll hive rest (hive sql w).2

/-- The text of one column line as the specification writes it. -/
def columnLine (c : Column) : GoString :=
  lit "  " ++ c.Name ++ lit " " ++ mysqlToHiveDataType c.DataType ++
    (if c.IsNullable = false then lit " NOT NULL" else [])

/-- Two columns that differ at most in `IsPrimary`. -/
def SameButPrimary (c d : Column) : Prop :=
  c.Name = d.Name ∧ c.DataType = d.DataType ∧ c.IsNullable = d.IsNullable

/-- The table `orders` of the first end-to-end scenario. -/
def ordersTable : Table :=
  { Name := lit "orders",
    Columns := [{ Name := lit "id", DataType := lit "int",
                  IsNullable := false, IsPrimary := true },
                { Name := lit "note", DataType := lit "varchar",
                  IsNullable := true, IsPrimary := false }] }

/-- A second table, used to follow `orders` in a schema. -/
def itemsTable : Table :=
  { Name := lit "items",
    Columns := [{ Name := lit "sku", DataType := lit "json",
                  IsNullable := true, IsPrimary := false }] }

/-- The schema of the first end-to-end scenario. -/
def salesSchema : Schema :=
  { DatabaseName := lit "sales", Tables := [ordersTable] }

/-- An engine whose world counts the runs and whose run number `n`, counted
from zero, fails. -/
def failAt (n : Nat) : Hive Nat :=
  fun _ w => (w == n, w + 1)

/-- An engine whose world counts the runs and which never fails. -/
def neverFail : Hive Nat :=
  fun _ w => (false, w + 1)

/-! ## Type mapper -/

/-- C1: `mysqlToHiveDataType` returns a string for every input and follows the
mapping table: the four integer names give `INT`, `varchar`, `char`, `text`
give `STRING`, the three floating names give `DOUBLE`, the three date names
give `TIMESTAMP`, and every other string, `json` among them, gives `STRING`. -/
theorem mysqlToHiveDataType_table (s : GoString) :
    (s ∈ [lit "int", lit "smallint", lit "mediumint", lit "bigint"] →
      mysqlToHiveDataType s = lit "INT") ∧
    (s ∈ [lit "varchar", lit "char", lit "text"] →
      mysqlToHiveDataType s = lit "STRING") ∧
    (s ∈ [lit "float", lit "double", lit "decimal"] →
      mysqlToHiveDataType s = lit "DOUBLE") ∧
    (s ∈ [lit "date", lit "datetime", lit "timestamp"] →
      mysqlToHiveDataType s = lit "TIMESTAMP") ∧
    (s ∉ [lit "int", lit "smallint", lit "mediumint", lit "bigint",
          lit "varchar", lit "char", lit "text",
          lit "float", lit "double", lit "decimal",
          lit "date", lit "datetime", lit "timestamp"] →
      mysqlToHiveDataType s = lit "STRING") ∧
    mysqlToHiveDataType (lit "json") = lit "STRING" := by
  refine ⟨?_, ?_, ?_, ?_, ?_, by decide⟩
  · intro h
    simp only [List.mem_cons, List.mem_singleton, List.not_mem_nil, or_false] at h
    rcases h with rfl | rfl | rfl | rfl <;> decide
  · intro h
    simp only [List.mem_cons, List.mem_singleton, List.not_mem_nil, or_false] at h
    rcases h with rfl | rfl | rfl <;> decide
  · intro h
    simp only [List.mem_cons, List.mem_singleton, List.not_mem_nil, or_false] at h
    rcases h with rfl | rfl | rfl <;> decide
  · intro h
    simp only [List.mem_cons, List.mem_singleton, List.not_mem_nil, or_false] at h
    rcases h with rfl | rfl | rfl <;> decide
  · intro h
    simp only [List.mem_cons, List.mem_singleton, List.not_mem_nil, or_false, not_or] at h
    obtain ⟨h1, h2, h3, h4, h5, h6, h7, h8, h9, h10, h11, h12, h13⟩ := h
    simp [mysqlToHiveDataType, h1, h2, h3, h4, h5, h6, h7, h8, h9, h10, h11, h12, h13]

/-- Witness of C1 at the recognised name `bigint` and at the unknown name `json`. -/
theorem mysqlToHiveDataType_table_witness :
    mysqlToHiveDataType (lit "bigint") = lit "INT" ∧
    mysqlToHiveDataType (lit "json") = lit "STRING" :=
  ⟨(mysqlToHiveDataType_table (lit "bigint")).1 (by decide),
   (mysqlToHiveDataType_table (lit "json")).2.2.2.2.1 (by decide)⟩

/-- C7, refuted: the name `INT` lower-cases to `int`, which the mapper sends
to `INT`, but `INT` itself is sent to the fallback `STRING`; likewise
`DATETIME` is sent to `STRING` and not to `TIMESTAMP`. -/
theorem mysqlToHiveDataType_upper_case_falls_back :
    toLowerASCII (lit "INT") = lit "int" ∧
    mysqlToHiveDataType (toLowerASCII (lit "INT")) = lit "INT" ∧
    mysqlToHiveDataType (lit "INT") = lit "STRING" ∧
    mysqlToHiveDataType (lit "INT") ≠ mysqlToHiveDataType (toLowerASCII (lit "INT")) ∧
    mysqlToHiveDataType (lit "DATETIME") = lit "STRING" ∧
    mysqlToHiveDataType (toLowerASCII (lit "DATETIME")) = lit "TIMESTAMP" := by
  decide

/-- C7, amended: the mapper compares the name as given, byte for byte, with
the lower-case names of the table and never lower-cases it.  A name that is
not already in lower case maps to the fallback `STRING`, a name maps to
something else than `STRING` exactly when it is one of the ten lower-case
names listed, and `INT`, `VarChar`, `DATETIME` all map to `STRING`. -/
theorem mysqlToHiveDataType_case_sensitive (s : GoString) :
    (toLowerASCII s ≠ s → mysqlToHiveDataType s = lit "STRING") ∧
    (mysqlToHiveDataType s ≠ lit "STRING" ↔
      s ∈ [lit "int", lit "smallint", lit "mediumint", lit "bigint",
           lit "float", lit "double", lit "decimal",
           lit "date", lit "datetime", lit "timestamp"]) ∧
    mysqlToHiveDataType (lit "INT") = lit "STRING" ∧
    mysqlToHiveDataType (lit "VarChar") = lit "STRING" ∧
    mysqlToHiveDataType (lit "DATETIME") = lit "STRING" := by
  have key : mysqlToHiveDataType s ≠ lit "STRING" ↔
      s ∈ [lit "int", lit "smallint", lit "mediumint", lit "bigint",
           lit "float", lit "double", lit "decimal",
           lit "date", lit "datetime", lit "timestamp"] := by
    constructor
    · intro h
      by_contra hs
      simp only [List.mem_cons, List.mem_singleton, List.not_mem_nil, or_false, not_or] at hs
      obtain ⟨h1, h2, h3, h4, h5, h6, h7, h8, h9, h10⟩ := hs
      apply h
      simp [mysqlToHiveDataType, h1, h2, h3, h4, h5, h6, h7, h8, h9, h10]
    · intro h
      simp only [List.mem_cons, List.mem_singleton, List.not_mem_nil, or_false] at h
      rcases h with rfl | rfl | rfl | rfl | rfl | rfl | rfl | rfl | rfl | rfl <;> decide
  refine ⟨?_, key, by decide, by decide, by decide⟩
  intro hl
  by_contra hne
  have hm := key.1 hne
  simp only [List.mem_cons, List.mem_singleton, List.not_mem_nil, or_false] at hm
  apply hl
  rcases hm with rfl | rfl | rfl | rfl | rfl | rfl | rfl | rfl | rfl | rfl <;> decide

/-- Witness of C7 as amended, at the name `INT`. -/
theorem mysqlToHiveDataType_case_sensitive_witness :
    toLowerASCII (lit "INT") ≠ lit "INT" ∧ mysqlToHiveDataType (lit "INT") = lit "STRING" :=
  ⟨by decide, (mysqlToHiveDataType_case_sensitive (lit "INT")).1 (by decide)⟩

/-! ## Auxiliary facts on the string builder -/

theorem writeColumn_eq (sql : GoString) (c : Column) :
    writeColumn sql c = sql ++ (columnLine c ++ lit ",\n") := by
  cases h : c.IsNullable <;> simp [writeColumn, columnLine, h, List.append_assoc]

theorem intercalate_cons_cons (sep a b : GoString) (r : List GoString) :
    List.intercalate sep (a :: b :: r) = a ++ sep ++ List.intercalate sep (b :: r) := by
  simp [List.intercalate, List.intersperse]

theorem foldl_writeColumn_cons (c : Column) (cs : List Column) (sql : GoString) :
    (c :: cs).foldl writeColumn sql =
      sql ++ List.intercalate (lit ",\n") ((c :: cs).map columnLine) ++ lit ",\n" := by
  induction cs generalizing c sql with
  | nil => simp [writeColumn_eq, List.intercalate, List.intersperse]
  | cons d ds ih =>
    have step : (c :: d :: ds).foldl writeColumn sql =
        (d :: ds).foldl writeColumn (writeColumn sql c) := rfl
    rw [step, ih, writeColumn_eq]
    simp only [List.map_cons, intercalate_cons_cons, List.append_assoc]

theorem sliceTo_append_pair (kept : GoString) (a b : Nat) :
    sliceTo (kept ++ [a, b]) (((kept ++ [a, b]).length : Int) - 2) = some kept := by
  have hlen : (((kept ++ [a, b]).length : Int) - 2) = (kept.length : Int) := by
    simp
  rw [hlen]
  simp [sliceTo]

theorem lit_comma_newline : lit ",\n" = [44, 10] := by decide

theorem lit_paren_newline : lit " (\n" = lit " " ++ [40, 10] := by decide

theorem buildTableSQL_cons (databaseName name : GoString) (c : Column) (cs : List Column) :
    buildTableSQL databaseName { Name := name, Columns := c :: cs } =
      (lit "CREATE TABLE IF NOT EXISTS " ++ databaseName ++ lit "." ++ name ++ lit " (\n" ++
        List.intercalate (lit ",\n") ((c :: cs).map columnLine)) ++ [44, 10] := by
  rw [← lit_comma_newline]
  exact foldl_writeColumn_cons c cs _

theorem buildTableSQL_nil (databaseName name : GoString) :
    buildTableSQL databaseName { Name := name, Columns := [] } =
      (lit "CREATE TABLE IF NOT EXISTS " ++ databaseName ++ lit "." ++ name ++ lit " ") ++
        [40, 10] := by
  simp [buildTableSQL, lit_paren_newline, List.append_assoc]

theorem tableSQL_cons (databaseName name : GoString) (c : Column) (cs : List Column) :
    generateHiveTableSQL databaseName { Name := name, Columns := c :: cs } =
      some (lit "CREATE TABLE IF NOT EXISTS " ++ databaseName ++ lit "." ++ name ++ lit " (\n" ++
        List.intercalate (lit ",\n") ((c :: cs).map columnLine) ++ lit "\n);") := by
  unfold generateHiveTableSQL
  simp only [buildTableSQL_cons, sliceTo_append_pair]

theorem tableSQL_nil (databaseName name : GoString) :
    generateHiveTableSQL databaseName { Name := name, Columns := [] } =
      some (lit "CREATE TABLE IF NOT EXISTS " ++ databaseName ++ lit "." ++ name ++ lit " " ++
        lit "\n);") := by
  unfold generateHiveTableSQL
  simp only [buildTableSQL_nil, sliceTo_append_pair]

theorem tableSQL_isSome (databaseName : GoString) (t : Table) :
    ∃ sql, generateHiveTableSQL databaseName t = some sql := by
  obtain ⟨name, cols⟩ := t
  cases cols with
  | nil => exact ⟨_, tableSQL_nil databaseName name⟩
  | cons c cs => exact ⟨_, tableSQL_cons databaseName name c cs⟩

theorem append_pair_split (kept : GoString) (a b : Nat) :
    2 ≤ (kept ++ [a, b]).length ∧
    (kept ++ [a, b]).take ((kept ++ [a, b]).length - 2) = kept ∧
    (kept ++ [a, b]).drop ((kept ++ [a, b]).length - 2) = [a, b] := by
  have hlen : (kept ++ [a, b]).length - 2 = kept.length := by simp
  rw [hlen]
  refine ⟨by simp, ?_, ?_⟩
  · simp
  · simp

theorem generateHiveTableSQL_take (databaseName : GoString) (t : Table)
    (h : 2 ≤ (buildTableSQL databaseName t).length) :
    generateHiveTableSQL databaseName t =
      some ((buildTableSQL databaseName t).take ((buildTableSQL databaseName t).length - 2) ++
        lit "\n);") := by
  have hi : 0 ≤ ((buildTableSQL databaseName t).length : Int) - 2 ∧
      ((buildTableSQL databaseName t).length : Int) - 2 ≤
        ((buildTableSQL databaseName t).length : Int) := by
    constructor <;> omega
  have hn : (((buildTableSQL databaseName t).length : Int) - 2).toNat =
      (buildTableSQL databaseName t).length - 2 := by
    omega
  simp only [generateHiveTableSQL, sliceTo, if_pos hi, hn]

theorem writeColumn_congr (sql : GoString) (c d : Column) (h : SameButPrimary c d) :
    writeColumn sql c = writeColumn sql d := by
  obtain ⟨hn, ht, hb⟩ := h
  simp [writeColumn, hn, ht, hb]

theorem foldl_writeColumn_congr (cs ds : List Column) (h : List.Forall₂ SameButPrimary cs ds) :
    ∀ sql : GoString, cs.foldl writeColumn sql = ds.foldl writeColumn sql := by
  induction h with
  | nil => intro sql; rfl
  | cons hcd _ ih =>
    intro sql
    simp only [List.foldl_cons]
    rw [writeColumn_congr sql _ _ hcd]
    exact ih _

theorem tableSQL_ne_nil (databaseName : GoString) (t : Table) (h : t.Columns ≠ []) :
    generateHiveTableSQL databaseName t =
      some (lit "CREATE TABLE IF NOT EXISTS " ++ databaseName ++ lit "." ++ t.Name ++ lit " (\n" ++
        List.intercalate (lit ",\n") (t.Columns.map columnLine) ++ lit "\n);") := by
  obtain ⟨name, cols⟩ := t
  cases cols with
  | nil => exact absurd rfl h
  | cons c cs => exact tableSQL_cons databaseName name c cs

/-! ## Auxiliary facts on the loop -/

theorem createTables_succeed {W : Type} (hive : Hive W) (databaseName : GoString) :
    ∀ (tables : List Table) (sqls : List GoString) (p : Proc W) (w : W),
      tables.map (generateHiveTableSQL databaseName) = sqls.map some →
      succeedAll hive sqls p.world = some w →
      createTables hive databaseName tables p =
        (Control.reading, { world := w, executed := p.executed ++ sqls }) := by
  intro tables
  induction tables with
  | nil =>
    intro sqls p w hmap hs
    cases sqls with
    | nil =>
      simp only [succeedAll, Option.some.injEq] at hs
      subst hs
      simp [createTables]
    | cons s ss => simp at hmap
  | cons t ts ih =>
    intro sqls p w hmap hs
    cases sqls with
    | nil => simp at hmap
    | cons s ss =>
      simp only [List.map_cons, List.cons.injEq] at hmap
      obtain ⟨ht, hts⟩ := hmap
      simp only [succeedAll] at hs
      split at hs
      · simp at hs
      · rename_i hrun
        have hrun0 : (hive s p.world).1 = false := by simpa using hrun
        have hrec := ih ss { world := (hive s p.world).2, executed := p.executed ++ [s] } w hts hs
        simp only [createTables, ht, executeHiveSQL, hrun0]
        simpa [List.append_assoc] using hrec

theorem createTables_fail {W : Type} (hive : Hive W) (databaseName : GoString)
    (t : Table) (after : List Table) (sql : GoString)
    (ht : generateHiveTableSQL databaseName t = some sql) :
    ∀ (before : List Table) (sqls : List GoString) (p : Proc W) (w : W),
      before.map (generateHiveTableSQL databaseName) = sqls.map some →
      succeedAll hive sqls p.world = some w →
      (hive sql w).1 = true →
      createTables hive databaseName (before ++ t :: after) p =
        (Control.exited Fatal.createTable,
          { world := (hive sql w).2, executed := p.executed ++ sqls ++ [sql] }) := by
  intro before
  induction before with
  | nil =>
    intro sqls p w hmap hs hfail
    cases sqls with
    | nil =>
      simp only [succeedAll, Option.some.injEq] at hs
      subst hs
      simp [createTables, ht, executeHiveSQL, hfail]
    | cons s ss => simp at hmap
  | cons b bs ih =>
    intro sqls p w hmap hs hfail
    cases sqls with
    | nil => simp at hmap
    | cons s ss =>
      simp only [List.map_cons, List.cons.injEq] at hmap
      obtain ⟨hb, hbs⟩ := hmap
      simp only [succeedAll] at hs
      split at hs
      · simp at hs
      · rename_i hrun
        have hrun0 : (hive s p.world).1 = false := by simpa using hrun
        have hrec := ih ss { world := (hive s p.world).2, executed := p.executed ++ [s] } w
          hbs hs hfail
        simp only [List.cons_append, createTables, hb, executeHiveSQL, hrun0]
        simpa [List.append_assoc] using hrec

/-! ## DDL generators -/

/-- C2: for a table with at least one column, `generateHiveTableSQL` returns
the header `CREATE TABLE IF NOT EXISTS db.name (` and a newline, the column
lines in input order joined by comma-newline, and the closing newline and `);`.
A column line is two blanks, the column name, a blank, the mapped type, and
` NOT NULL` exactly when the column is not nullable. -/
theorem generateHiveTableSQL_columns (databaseName : GoString) (t : Table)
    (h : t.Columns ≠ []) :
    generateHiveTableSQL databaseName t =
      some (lit "CREATE TABLE IF NOT EXISTS " ++ databaseName ++ lit "." ++ t.Name ++ lit " (\n" ++
        List.intercalate (lit ",\n")
          (t.Columns.map (fun c =>
            lit "  " ++ c.Name ++ lit " " ++ mysqlToHiveDataType c.DataType ++
              (if c.IsNullable = false then lit " NOT NULL" else []))) ++
        lit "\n);") := by
  obtain ⟨name, cols⟩ := t
  cases cols with
  | nil => exact absurd rfl h
  | cons c cs => exact tableSQL_cons databaseName name c cs

/-- Witness of C2: the table `orders` of the database `sales` with the columns
`id` (int, not nullable) and `note` (varchar, nullable). -/
theorem generateHiveTableSQL_columns_witness :
    generateHiveTableSQL (lit "sales")
        { Name := lit "orders",
          Columns := [{ Name := lit "id", DataType := lit "int",
                        IsNullable := false, IsPrimary := true },
                      { Name := lit "note", DataType := lit "varchar",
                        IsNullable := true, IsPrimary := false }] } =
      some (lit "CREATE TABLE IF NOT EXISTS sales.orders (\n  id INT NOT NULL,\n  note STRING\n);") := by
  rw [generateHiveTableSQL_columns _ _ (by simp)]
  decide

/-- C3: `generateHiveDatabaseSQL` is the fixed text `CREATE DATABASE IF NOT EXISTS `,
the database name byte for byte, and `;`. -/
theorem generateHiveDatabaseSQL_eq (databaseName : GoString) :
    generateHiveDatabaseSQL databaseName =
      lit "CREATE DATABASE IF NOT EXISTS " ++ databaseName ++ lit ";" := by
  rfl

/-- C9, the code at a table without columns: the two bytes cut off are the
opening parenthesis and the newline of the header, so the statement for the
table `t` of the database `d` is `CREATE TABLE IF NOT EXISTS d.t ` followed by
a newline and `);`, and not the statement with the parenthesis kept. -/
theorem generateHiveTableSQL_no_columns_loses_paren :
    generateHiveTableSQL (lit "d") { Name := lit "t", Columns := [] } =
      some (lit "CREATE TABLE IF NOT EXISTS d.t \n);") ∧
    generateHiveTableSQL (lit "d") { Name := lit "t", Columns := [] } ≠
      some (lit "CREATE TABLE IF NOT EXISTS " ++ lit "d" ++ lit "." ++ lit "t" ++ lit " (" ++
        lit "\n" ++ lit ");") := by
  decide

/-- C10: `generateHiveTableSQL` returns for every database name and every
table.  The built string has at least two bytes, the result is the built
string without its last two bytes followed by the closing text, and the two
bytes cut off are the comma and newline written after the last column, or,
without columns, the parenthesis and newline of the header; what is kept
holds the database name, the table name and every column line in full. -/
theorem generateHiveTableSQL_total (databaseName : GoString) (t : Table) :
    2 ≤ (buildTableSQL databaseName t).length ∧
    generateHiveTableSQL databaseName t =
      some ((buildTableSQL databaseName t).take ((buildTableSQL databaseName t).length - 2) ++
        lit "\n);") ∧
    (t.Columns ≠ [] →
      (buildTableSQL databaseName t).drop ((buildTableSQL databaseName t).length - 2) =
        lit ",\n" ∧
      (buildTableSQL databaseName t).take ((buildTableSQL databaseName t).length - 2) =
        lit "CREATE TABLE IF NOT EXISTS " ++ databaseName ++ lit "." ++ t.Name ++ lit " (\n" ++
          List.intercalate (lit ",\n") (t.Columns.map columnLine)) ∧
    (t.Columns = [] →
      (buildTableSQL databaseName t).drop ((buildTableSQL databaseName t).length - 2) =
        lit "(\n" ∧
      (buildTableSQL databaseName t).take ((buildTableSQL databaseName t).length - 2) =
        lit "CREATE TABLE IF NOT EXISTS " ++ databaseName ++ lit "." ++ t.Name ++ lit " ") := by
  obtain ⟨name, cols⟩ := t
  cases cols with
  | nil =>
    have hb := buildTableSQL_nil databaseName name
    obtain ⟨h2, htake, hdrop⟩ := append_pair_split
      (lit "CREATE TABLE IF NOT EXISTS " ++ databaseName ++ lit "." ++ name ++ lit " ") 40 10
    rw [← hb] at h2 htake hdrop
    refine ⟨h2, generateHiveTableSQL_take _ _ h2, fun h => absurd rfl h, fun _ => ⟨?_, htake⟩⟩
    rw [hdrop]
    decide
  | cons c cs =>
    have hb := buildTableSQL_cons databaseName name c cs
    obtain ⟨h2, htake, hdrop⟩ := append_pair_split
      (lit "CREATE TABLE IF NOT EXISTS " ++ databaseName ++ lit "." ++ name ++ lit " (\n" ++
        List.intercalate (lit ",\n") ((c :: cs).map columnLine)) 44 10
    rw [← hb] at h2 htake hdrop
    refine ⟨h2, generateHiveTableSQL_take _ _ h2, fun _ => ⟨?_, htake⟩, fun h => ?_⟩
    · rw [hdrop]
      decide
    · exact absurd h (by simp)

/-- Witness of C10 at a table with one column whose names are empty. -/
theorem generateHiveTableSQL_total_witness :
    (buildTableSQL [] { Name := [], Columns := [⟨[], [], true, false⟩] }).drop
        ((buildTableSQL [] { Name := [], Columns := [⟨[], [], true, false⟩] }).length - 2) =
      lit ",\n" :=
  ((generateHiveTableSQL_total [] { Name := [], Columns := [⟨[], [], true, false⟩] }).2.2.1
    (by simp)).1

/-- C8: two tables with the same name whose columns agree, position by
position, in name, data type and nullability give the same statement,
whatever their `IsPrimary` values are. -/
theorem generateHiveTableSQL_ignores_IsPrimary (databaseName : GoString) (t u : Table)
    (hname : t.Name = u.Name)
    (hcols : List.Forall₂ SameButPrimary t.Columns u.Columns) :
    generateHiveTableSQL databaseName t = generateHiveTableSQL databaseName u := by
  have hb : buildTableSQL databaseName t = buildTableSQL databaseName u := by
    unfold buildTableSQL
    rw [hname]
    exact foldl_writeColumn_congr _ _ hcols _
  unfold generateHiveTableSQL
  rw [hb]

/-- Witness of C8: the table `orders` with `id` primary and with `note` primary. -/
theorem generateHiveTableSQL_ignores_IsPrimary_witness :
    generateHiveTableSQL (lit "sales")
        { Name := lit "orders",
          Columns := [⟨lit "id", lit "int", false, true⟩,
                      ⟨lit "note", lit "varchar", true, false⟩] } =
      generateHiveTableSQL (lit "sales")
        { Name := lit "orders",
          Columns := [⟨lit "id", lit "int", false, false⟩,
                      ⟨lit "note", lit "varchar", true, true⟩] } :=
  generateHiveTableSQL_ignores_IsPrimary (lit "sales") _ _ rfl
    (List.Forall₂.cons ⟨rfl, rfl, rfl⟩ (List.Forall₂.cons ⟨rfl, rfl, rfl⟩ List.Forall₂.nil))

/-! ## Ingestion loop -/

/-- C5: processing a decoded schema stops at the first statement that fails.
When the database statement fails, it is the only statement run and the
process exits.  When the statements of the database and of the tables before
`t` succeed and the statement of `t` fails, the statements run are the database
statement and those of the tables up to `t`, in input order, and the process
exits; no statement of a table after `t` is run.  Once processing a message
has exited, the loop reads no later message. -/
theorem processSchema_fail_fast {W : Type} (hive : Hive W)
    (unmarshal : GoString → Option Schema) :
    (∀ (schema : Schema) (p : Proc W),
      (hive (generateHiveDatabaseSQL schema.DatabaseName) p.world).1 = true →
      processSchema hive schema p =
        (Control.exited Fatal.createDatabase,
          { world := (hive (generateHiveDatabaseSQL schema.DatabaseName) p.world).2,
            executed := p.executed ++ [generateHiveDatabaseSQL schema.DatabaseName] })) ∧
    (∀ (databaseName : GoString) (before : List Table) (t : Table) (after : List Table)
        (sqls : List GoString) (sql : GoString) (p : Proc W) (w : W),
      before.map (generateHiveTableSQL databaseName) = sqls.map some →
      generateHiveTableSQL databaseName t = some sql →
      succeedAll hive (generateHiveDatabaseSQL databaseName :: sqls) p.world = some w →
      (hive sql w).1 = true →
      processSchema hive { DatabaseName := databaseName, Tables := before ++ t :: after } p =
        (Control.exited Fatal.createTable,
          { world := (hive sql w).2,
            executed := p.executed ++ (generateHiveDatabaseSQL databaseName :: sqls ++ [sql]) })) ∧
    (∀ (value : GoString) (schema : Schema) (later : List (Option GoString))
        (p q : Proc W) (why : Fatal),
      unmarshal value = some schema →
      processSchema hive schema p = (Control.exited why, q) →
      ingest hive unmarshal (some value :: later) p = (Control.exited why, q)) := by
  refine ⟨?_, ?_, ?_⟩
  · intro schema p hfail
    simp [processSchema, executeHiveSQL, hfail]
  · intro databaseName before t after sqls sql p w hmap ht hs hfail
    simp only [succeedAll] at hs
    split at hs
    · simp at hs
    · rename_i hrun
      have hrun0 : (hive (generateHiveDatabaseSQL databaseName) p.world).1 = false := by
        simpa using hrun
      have hrec := createTables_fail hive databaseName t after sql ht before sqls
        { world := (hive (generateHiveDatabaseSQL databaseName) p.world).2,
          executed := p.executed ++ [generateHiveDatabaseSQL databaseName] } w hmap hs hfail
      simp only [processSchema, executeHiveSQL, hrun0]
      simpa [List.append_assoc] using hrec
  · intro value schema later p q why hu hp
    simp [ingest, hu, hp]

/-- Witness of C5: with an engine that fails at its second run, the schema
with the tables `orders` and `items` exits after the statement of `orders`. -/
theorem processSchema_fail_fast_witness :
    processSchema (failAt 1) { DatabaseName := lit "sales", Tables := [ordersTable, itemsTable] }
        { world := 0, executed := [] } =
      (Control.exited Fatal.createTable,
        { world := 2,
          executed := [lit "CREATE DATABASE IF NOT EXISTS sales;",
            lit "CREATE TABLE IF NOT EXISTS sales.orders (\n  id INT NOT NULL,\n  note STRING\n);"] }) :=
  (processSchema_fail_fast (failAt 1) (fun _ => none)).2.1 (lit "sales") [] ordersTable
    [itemsTable] []
    (lit "CREATE TABLE IF NOT EXISTS sales.orders (\n  id INT NOT NULL,\n  note STRING\n);")
    { world := 0, executed := [] } 1 rfl (by decide) (by decide) (by decide)

/-- C6: when every statement of a decoded schema runs without error, the
statements run are the database statement followed by the statement of every
table in input order, each once, and the loop goes on to read the next
message.  For the schema `sales` with the table `orders` these statements are
the two texts of the first end-to-end scenario. -/
theorem processSchema_all_succeed {W : Type} (hive : Hive W)
    (unmarshal : GoString → Option Schema) :
    (∀ (schema : Schema) (sqls : List GoString) (p : Proc W) (w : W),
      schema.Tables.map (generateHiveTableSQL schema.DatabaseName) = sqls.map some →
      succeedAll hive (generateHiveDatabaseSQL schema.DatabaseName :: sqls) p.world = some w →
      processSchema hive schema p =
          (Control.reading,
            { world := w,
              executed := p.executed ++ (generateHiveDatabaseSQL schema.DatabaseName :: sqls) }) ∧
      ∀ (value : GoString) (later : List (Option GoString)),
        unmarshal value = some schema →
        ingest hive unmarshal (some value :: later) p =
          ingest hive unmarshal later
            { world := w,
              executed :=
                p.executed ++ (generateHiveDatabaseSQL schema.DatabaseName :: sqls) }) ∧
    generateHiveDatabaseSQL salesSchema.DatabaseName =
      lit "CREATE DATABASE IF NOT EXISTS sales;" ∧
    salesSchema.Tables.map (generateHiveTableSQL salesSchema.DatabaseName) =
      [some (lit
        "CREATE TABLE IF NOT EXISTS sales.orders (\n  id INT NOT NULL,\n  note STRING\n);")] := by
  refine ⟨?_, by decide, by decide⟩
  intro schema sqls p w hmap hs
  have hp : processSchema hive schema p =
      (Control.reading,
        { world := w,
          executed := p.executed ++ (generateHiveDatabaseSQL schema.DatabaseName :: sqls) }) := by
    simp only [succeedAll] at hs
    split at hs
    · simp at hs
    · rename_i hrun
      have hrun0 : (hive (generateHiveDatabaseSQL schema.DatabaseName) p.world).1 = false := by
        simpa using hrun
      have hrec := createTables_succeed hive schema.DatabaseName schema.Tables sqls
        { world := (hive (generateHiveDatabaseSQL schema.DatabaseName) p.world).2,
          executed := p.executed ++ [generateHiveDatabaseSQL schema.DatabaseName] } w hmap hs
      simp only [processSchema, executeHiveSQL, hrun0]
      simpa [List.append_assoc] using hrec
  refine ⟨hp, ?_⟩
  intro value later hu
  simp [ingest, hu, hp]

/-- Witness of C6: with an engine that never fails, the schema of the first
end-to-end scenario runs its two statements and the loop is reading again. -/
theorem processSchema_all_succeed_witness :
    processSchema neverFail salesSchema { world := 0, executed := [] } =
      (Control.reading,
        { world := 2,
          executed := [lit "CREATE DATABASE IF NOT EXISTS sales;",
            lit "CREATE TABLE IF NOT EXISTS sales.orders (\n  id INT NOT NULL,\n  note STRING\n);"] }) :=
  ((processSchema_all_succeed neverFail (fun _ => none)).1 salesSchema
    [lit "CREATE TABLE IF NOT EXISTS sales.orders (\n  id INT NOT NULL,\n  note STRING\n);"]
    { world := 0, executed := [] } 2 (by decide) (by decide)).1

/-! ## Well-formed statements -/

theorem mysqlToHiveDataType_last (s : GoString) :
    ∃ (pre : GoString) (b : Nat), mysqlToHiveDataType s = pre ++ [b] ∧ b ≠ 44 := by
  unfold mysqlToHiveDataType
  split_ifs
  · exact ⟨lit "IN", 84, by decide, by decide⟩
  · exact ⟨lit "STRIN", 71, by decide, by decide⟩
  · exact ⟨lit "DOUBL", 69, by decide, by decide⟩
  · exact ⟨lit "TIMESTAM", 80, by decide, by decide⟩
  · exact ⟨lit "STRIN", 71, by decide, by decide⟩

theorem columnLine_last (c : Column) :
    ∃ (pre : GoString) (b : Nat), columnLine c = pre ++ [b] ∧ b ≠ 44 := by
  obtain ⟨pre, b, hm, hb⟩ := mysqlToHiveDataType_last c.DataType
  cases hn : c.IsNullable with
  | true =>
    refine ⟨lit "  " ++ c.Name ++ lit " " ++ pre, b, ?_, hb⟩
    simp [columnLine, hn, hm, List.append_assoc]
  | false =>
    refine ⟨lit "  " ++ c.Name ++ lit " " ++ mysqlToHiveDataType c.DataType ++ lit " NOT NUL",
      76, ?_, by decide⟩
    have hl : lit " NOT NULL" = lit " NOT NUL" ++ [76] := by decide
    simp [columnLine, hn, hl, List.append_assoc]

theorem intercalate_last (sep : GoString) :
    ∀ (ls : List GoString), ls ≠ [] →
      (∀ l ∈ ls, ∃ (pre : GoString) (b : Nat), l = pre ++ [b] ∧ b ≠ 44) →
      ∃ (pre : GoString) (b : Nat), List.intercalate sep ls = pre ++ [b] ∧ b ≠ 44 := by
  intro ls
  induction ls with
  | nil => intro h; exact absurd rfl h
  | cons x r ih =>
    intro _ hall
    cases r with
    | nil =>
      obtain ⟨pre, b, hx, hb⟩ := hall x (by simp)
      exact ⟨pre, b, by simp [List.intercalate, List.intersperse, hx], hb⟩
    | cons y r =>
      obtain ⟨pre, b, hr, hb⟩ := ih (by simp) (fun l hl => hall l (List.mem_cons_of_mem _ hl))
      refine ⟨x ++ sep ++ pre, b, ?_, hb⟩
      rw [intercalate_cons_cons, hr]
      simp [List.append_assoc]

theorem not_comma_suffix (pre : GoString) (b : Nat) (hb : b ≠ 44) :
    ¬ (lit "," <:+ pre ++ [b]) := by
  intro h
  have hc : lit "," = [44] := by decide
  rw [hc] at h
  obtain ⟨front, hf⟩ := h
  have := List.append_inj_right' hf rfl
  simp at this
  exact hb this.symm

theorem starts_of_append (key a x : GoString) (hlen : key.length ≤ a.length)
    (h : key <+: a ++ x) : key <+: a :=
  List.prefix_of_prefix_length_le h (List.prefix_append a x) hlen

theorem databaseSQL_not_table (databaseName : GoString) :
    ¬ (lit "CREATE TABLE IF NOT EXISTS" <+: generateHiveDatabaseSQL databaseName) := by
  intro h
  have h1 : lit "CREATE T" <+: lit "CREATE TABLE IF NOT EXISTS" := by decide
  have h2 := h1.trans h
  unfold generateHiveDatabaseSQL at h2
  rw [List.append_assoc] at h2
  have h3 := starts_of_append _ _ _ (by decide) h2
  revert h3
  decide

theorem tableText_not_database (rest : GoString) :
    ¬ (lit "CREATE DATABASE IF NOT EXISTS" <+:
      lit "CREATE TABLE IF NOT EXISTS " ++ rest) := by
  intro h
  have h1 : lit "CREATE D" <+: lit "CREATE DATABASE IF NOT EXISTS" := by decide
  have h3 := starts_of_append _ _ _ (by decide) (h1.trans h)
  revert h3
  decide

/-- C4: for a schema with at least one table and at least one column in every
table, every table has a statement, and in the list made of the database
statement followed by the table statements in input order there are one more
statements than tables, exactly one begins with `CREATE DATABASE IF NOT EXISTS`,
as many as there are tables begin with `CREATE TABLE IF NOT EXISTS`, the
database statement being none of them, every statement ends with `;`, and every
table statement is a text that does not end with a comma followed by a newline
and `);`. -/
theorem schema_statements_well_formed (schema : Schema)
    (htables : schema.Tables ≠ [])
    (hcolumns : ∀ t ∈ schema.Tables, t.Columns ≠ []) :
    ∃ tableSQLs : List GoString,
      schema.Tables.map (generateHiveTableSQL schema.DatabaseName) = tableSQLs.map some ∧
      (generateHiveDatabaseSQL schema.DatabaseName :: tableSQLs).length =
        1 + schema.Tables.length ∧
      (generateHiveDatabaseSQL schema.DatabaseName :: tableSQLs).countP
        (fun s => decide (lit "CREATE DATABASE IF NOT EXISTS" <+: s)) = 1 ∧
      (generateHiveDatabaseSQL schema.DatabaseName :: tableSQLs).countP
        (fun s => decide (lit "CREATE TABLE IF NOT EXISTS" <+: s)) = schema.Tables.length ∧
      lit "CREATE DATABASE IF NOT EXISTS" <+: generateHiveDatabaseSQL schema.DatabaseName ∧
      (∀ s ∈ tableSQLs, lit "CREATE TABLE IF NOT EXISTS" <+: s) ∧
      (∀ s ∈ generateHiveDatabaseSQL schema.DatabaseName :: tableSQLs, lit ";" <:+ s) ∧
      (∀ s ∈ tableSQLs, ∃ body : GoString, s = body ++ lit "\n);" ∧ ¬ (lit "," <:+ body)) := by
  obtain ⟨db, tables⟩ := schema
  simp only at htables hcolumns ⊢
  have hshape : ∀ t ∈ tables, ∃ rest body : GoString,
      generateHiveTableSQL db t = some (lit "CREATE TABLE IF NOT EXISTS " ++ rest) ∧
      lit "CREATE TABLE IF NOT EXISTS " ++ rest = body ++ lit "\n);" ∧
      ¬ (lit "," <:+ body) := by
    intro t ht
    have hne := hcolumns t ht
    obtain ⟨pre, b, hi, hb⟩ := intercalate_last (lit ",\n") (t.Columns.map columnLine)
      (by simpa using hne)
      (by
        intro l hl
        obtain ⟨c, _, rfl⟩ := List.mem_map.1 hl
        exact columnLine_last c)
    refine ⟨db ++ lit "." ++ t.Name ++ lit " (\n" ++
        List.intercalate (lit ",\n") (t.Columns.map columnLine) ++ lit "\n);",
      lit "CREATE TABLE IF NOT EXISTS " ++ db ++ lit "." ++ t.Name ++ lit " (\n" ++
        List.intercalate (lit ",\n") (t.Columns.map columnLine), ?_, ?_, ?_⟩
    · rw [tableSQL_ne_nil db t hne]
      simp only [List.append_assoc]
    · simp only [List.append_assoc]
    · rw [hi, ← List.append_assoc]
      exact not_comma_suffix _ b hb
  have hall : ∃ tableSQLs : List GoString,
      tables.map (generateHiveTableSQL db) = tableSQLs.map some ∧
      tableSQLs.length = tables.length ∧
      ∀ s ∈ tableSQLs, ∃ rest body : GoString,
        s = lit "CREATE TABLE IF NOT EXISTS " ++ rest ∧
        s = body ++ lit "\n);" ∧ ¬ (lit "," <:+ body) := by
    clear htables hcolumns
    induction tables with
    | nil => exact ⟨[], rfl, rfl, by simp⟩
    | cons t ts ih =>
      obtain ⟨rest, body, hg, hbody, hcomma⟩ := hshape t (by simp)
      obtain ⟨sqls, hmap, hlen, hprop⟩ := ih (fun u hu => hshape u (List.mem_cons_of_mem _ hu))
      refine ⟨(lit "CREATE TABLE IF NOT EXISTS " ++ rest) :: sqls, ?_, by simp [hlen], ?_⟩
      · simp [hg, hmap]
      · intro s hs
        rcases List.mem_cons.1 hs with rfl | hs
        · exact ⟨rest, body, rfl, hbody, hcomma⟩
        · exact hprop s hs
  obtain ⟨tableSQLs, hmap, hlen, hprop⟩ := hall
  have hsemi : lit ";" <:+ lit "\n);" := by decide
  have hkey : lit "CREATE TABLE IF NOT EXISTS" <+: lit "CREATE TABLE IF NOT EXISTS " := by
    decide
  have hdbkey : lit "CREATE DATABASE IF NOT EXISTS" <+: generateHiveDatabaseSQL db := by
    have : lit "CREATE DATABASE IF NOT EXISTS" <+: lit "CREATE DATABASE IF NOT EXISTS " := by
      decide
    unfold generateHiveDatabaseSQL
    rw [List.append_assoc]
    exact this.trans (List.prefix_append _ _)
  have htab : ∀ s ∈ tableSQLs, lit "CREATE TABLE IF NOT EXISTS" <+: s := by
    intro s hs
    obtain ⟨rest, _, rfl, _, _⟩ := hprop s hs
    exact hkey.trans (List.prefix_append _ _)
  have hnodb : ∀ s ∈ tableSQLs, ¬ (lit "CREATE DATABASE IF NOT EXISTS" <+: s) := by
    intro s hs
    obtain ⟨rest, _, rfl, _, _⟩ := hprop s hs
    exact tableText_not_database rest
  refine ⟨tableSQLs, hmap, by simp [hlen, Nat.add_comm], ?_, ?_, hdbkey, htab, ?_, ?_⟩
  · rw [List.countP_cons_of_pos _ _ (by simpa using hdbkey)]
    have : tableSQLs.countP (fun s => decide (lit "CREATE DATABASE IF NOT EXISTS" <+: s)) = 0 := by
      rw [List.countP_eq_zero]
      intro s hs
      simpa using hnodb s hs
    rw [this]
  · rw [List.countP_cons_of_neg _ _ (by simpa using databaseSQL_not_table db)]
    have : tableSQLs.countP (fun s => decide (lit "CREATE TABLE IF NOT EXISTS" <+: s)) =
        tableSQLs.length := by
      rw [List.countP_eq_length]
      intro s hs
      simpa using htab s hs
    rw [this, hlen]
  · intro s hs
    rcases List.mem_cons.1 hs with rfl | hs
    · unfold generateHiveDatabaseSQL
      exact List.suffix_append _ _
    · obtain ⟨_, body, _, hb, _⟩ := hprop s hs
      rw [hb]
      exact hsemi.trans (List.suffix_append _ _)
  · intro s hs
    obtain ⟨_, body, _, hb, hc⟩ := hprop s hs
    exact ⟨body, hb, hc⟩

/-- Witness of C4: the schema of the first end-to-end scenario has one table
with two columns, and its statement list has two entries. -/
theorem schema_statements_well_formed_witness :
    ∃ tableSQLs : List GoString,
      salesSchema.Tables.map (generateHiveTableSQL salesSchema.DatabaseName) =
        tableSQLs.map some ∧
      (generateHiveDatabaseSQL salesSchema.DatabaseName :: tableSQLs).length = 2 := by
  obtain ⟨sqls, hmap, hlen, _⟩ :=
    schema_statements_well_formed salesSchema (by decide) (by decide)
  exact ⟨sqls, hmap, hlen⟩

end GoBiServer
